import Mathlib

/-!
Verification of the geometric/interval-classification core of the natal-chart
program (`astro_chart.py`): sign classification, house resolution, and aspect
detection over circular ecliptic longitudes.

Longitudes are embedded as rationals (`ℚ`); Python's `int()` truncation is
embedded as `truncZ`.  The `ZODIAC_SIGNS` and `ASPECTS` tables, and the
functions `get_zodiac_sign`, `get_house_for_planet` and `get_aspects`, are
direct translations of the corresponding Python defs.
-/

set_option allowUnsafeReducibility true in
attribute [semireducible] Rat.add Rat.sub Rat.mul Rat.inv

/-- Python `int()` applied to a rational: truncation toward zero
(`Int.tdiv` is toward-zero division). -/
def truncZ (q : ℚ) : ℤ := q.num.tdiv q.den

/-- The `ZODIAC_SIGNS` constant: 12 named sectors `(name, start, end)`.
(`end` is a reserved word in Lean, so the third component is unnamed.) -/
def ZODIAC_SIGNS : List (String × ℚ × ℚ) :=
  [("Aries", 0, 30), ("Taurus", 30, 60), ("Gemini", 60, 90), ("Cancer", 90, 120),
   ("Leo", 120, 150), ("Virgo", 150, 180), ("Libra", 180, 210), ("Scorpio", 210, 240),
   ("Sagittarius", 240, 270), ("Capricorn", 270, 300), ("Aquarius", 300, 330), ("Pisces", 330, 360)]

/-- The 12 sign names, in table order. -/
def signNames : List String :=
  ["Aries", "Taurus", "Gemini", "Cancer", "Leo", "Virgo", "Libra", "Scorpio",
   "Sagittarius", "Capricorn", "Aquarius", "Pisces"]

/-- The `for sign, start, end in ZODIAC_SIGNS: if start <= degree < end` scan
inside `get_zodiac_sign`: first sector whose half-open interval contains the
degree. -/
def findSector : List (String × ℚ × ℚ) → ℚ → Option (String × ℚ × ℚ)
  | [], _ => none
  | (sign, start, stop) :: rest, degree =>
    if start ≤ degree ∧ degree < stop then some (sign, start, stop) else findSector rest degree

/-- The arithmetic on a matched sector (lines 30–32 of `astro_chart.py`):
`sign_degree = degree - start; deg = int(sign_degree);
minutes = int((sign_degree - deg) * 60)`.  Returns `none` when no sector
matches (the `"Unknown"` fallthrough). -/
def signParts (degree : ℚ) : Option (String × ℤ × ℤ) :=
  match findSector ZODIAC_SIGNS degree with
  | some (sign, start, _) =>
    let sign_degree := degree - start
    let deg := truncZ sign_degree
    let minutes := truncZ ((sign_degree - (deg : ℚ)) * 60)
    some (sign, deg, minutes)
  | none => none

/-- Python's f-string `f"{sign} {deg}°{minutes}′"`. -/
def formatPos (sign : String) (deg minutes : ℤ) : String :=
  sign ++ " " ++ toString deg ++ "°" ++ toString minutes ++ "′"

/-- `get_zodiac_sign`: returns `(sign, formatted_position)`, or the
`("Unknown", "Unknown")` sentinel when no sector matches. -/
def get_zodiac_sign (degree : ℚ) : String × String :=
  match signParts degree with
  | some (sign, deg, minutes) => (sign, formatPos sign deg minutes)
  | none => ("Unknown", "Unknown")

/-- Result of `get_house_for_planet`: a house number `1..12`, or the
`"UNKNOWN"` string sentinel. -/
inductive HouseResult where
  | house (n : ℕ)
  | unknown
deriving DecidableEq

/-- One iteration of the `for i in range(12)` loop body of
`get_house_for_planet`: with `house_start = house_degrees[i]` and
`house_end = house_degrees[(i+1) % 12]` (embedded as `Fin 12` addition), the
planet is placed in house `i+1` when the normal-span test
`house_start <= planet_degree < house_end` succeeds, or when the wrap-around
test `house_end < house_start and (planet_degree >= house_start or
planet_degree < house_end)` succeeds. -/
def houseMatch (planet_degree : ℚ) (house_degrees : Fin 12 → ℚ) (i : Fin 12) : Bool :=
  let house_start := house_degrees i
  let house_end := house_degrees (i + 1)
  decide (house_start ≤ planet_degree ∧ planet_degree < house_end) ||
    decide (house_end < house_start ∧ (planet_degree ≥ house_start ∨ planet_degree < house_end))

/-- `get_house_for_planet`: the `house_cusps` dict with keys `"House 1"` ..
`"House 12"` is embedded as a total map `Fin 12 → ℚ` (index `i` holding
`house_cusps[f"House {i+1}"]["degree"]`).  The loop returns `i + 1` for the
first index whose span test succeeds and the `"UNKNOWN"` sentinel if none
does. -/
def get_house_for_planet (planet_degree : ℚ) (house_degrees : Fin 12 → ℚ) : HouseResult :=
  match (List.finRange 12).find? (houseMatch planet_degree house_degrees) with
  | some i => HouseResult.house (i.val + 1)
  | none => HouseResult.unknown

/-- The `ASPECTS` table `(name, exact_angle, orb)`, in Python dict insertion
order. -/
def ASPECTS : List (String × ℚ × ℚ) :=
  [("Conjunction", 0, 8), ("Opposition", 180, 8),
   ("Trine", 120, 6), ("Square", 90, 6), ("Sextile", 60, 4)]

/-- The separation computed in `get_aspects`:
`angle = abs(pos1 - pos2); if angle > 180: angle = 360 - angle`. -/
def circularSep (pos1 pos2 : ℚ) : ℚ :=
  let angle := |pos1 - pos2|
  if angle > 180 then 360 - angle else angle

/-- The per-aspect test in `get_aspects`: `abs(angle - exact) <= orb`. -/
def aspectHit (angle exactAngle orb : ℚ) : Bool := decide (|angle - exactAngle| ≤ orb)

/-- One entry of the `planet_positions` dict: `{"sign": ..., "degree": ...,
"house": ..., "formatted": ...}`.  `get_aspects` reads only `degree` and
`sign`; `house` and `formatted` are carried to state that they are ignored. -/
structure PlanetPos where
  sign : String
  degree : ℚ
  house : HouseResult
  formatted : String
deriving DecidableEq

/-- The data of one appended aspect description: the Python code interpolates
exactly these seven values into the string
`f"{planet1} in House {house1} and {sign1} {aspect} {planet2} in House
{house2} and {sign2}"`; the embedding keeps them structured. -/
structure AspectRecord where
  planet1 : String
  house1 : HouseResult
  sign1 : String
  aspect : String
  planet2 : String
  house2 : HouseResult
  sign2 : String
deriving DecidableEq

/-- The record appended for one matching aspect: houses are recomputed from
the cusps via `get_house_for_planet` (lines 112–113), signs read from the
input records. -/
def mkRecord (house_cusps : Fin 12 → ℚ) (planet1 : String) (pos1 : PlanetPos)
    (planet2 : String) (pos2 : PlanetPos) (aspect : String) : AspectRecord :=
  { planet1 := planet1, house1 := get_house_for_planet pos1.degree house_cusps,
    sign1 := pos1.sign, aspect := aspect,
    planet2 := planet2, house2 := get_house_for_planet pos2.degree house_cusps,
    sign2 := pos2.sign }

/-- The inner `for aspect, (exact, orb) in ASPECTS.items()` loop of
`get_aspects` for one planet pair: every aspect definition is tested in table
order and a record is appended for each hit. -/
def pairRecords (house_cusps : Fin 12 → ℚ) (planet1 : String) (pos1 : PlanetPos)
    (planet2 : String) (pos2 : PlanetPos) : List AspectRecord :=
  let angle := circularSep pos1.degree pos2.degree
  ASPECTS.filterMap fun t =>
    if aspectHit angle t.2.1 t.2.2 then
      some (mkRecord house_cusps planet1 pos1 planet2 pos2 t.1)
    else none

/-- The double loop `for i in range(len(planets)): for j in range(i+1, ...)`:
all unordered pairs in iteration order. -/
def allPairs {α : Type*} : List α → List (α × α)
  | [] => []
  | x :: rest => rest.map (fun y => (x, y)) ++ allPairs rest

/-- `get_aspects`: the `planet_positions` dict is embedded as an association
list in iteration order; the output is the list of appended records. -/
def get_aspects (planet_positions : List (String × PlanetPos))
    (house_cusps : Fin 12 → ℚ) : List AspectRecord :=
  (allPairs planet_positions).flatMap fun pq =>
    pairRecords house_cusps pq.1.1 pq.1.2 pq.2.1 pq.2.2

/-- The all-zero cusp set (a degenerate, non-partitioning configuration). -/
def constCusps : Fin 12 → ℚ := fun _ => 0

/-- The evenly spaced cusp set of the reference test: House `i+1` starts at
`10 + 30·i` degrees. -/
def testCusps : Fin 12 → ℚ := fun i => 10 + 30 * (i.val : ℚ)

/-- A planet-position record with only the geometric fields populated. -/
def samplePos (sign : String) (degree : ℚ) : PlanetPos :=
  { sign := sign, degree := degree, house := HouseResult.unknown, formatted := "" }

/-! ### Helper lemmas: sign classifier -/

lemma truncZ_of_nonneg {q : ℚ} (h : 0 ≤ q) : truncZ q = ⌊q⌋ := by
  rw [truncZ, Rat.floor_def]
  exact Int.tdiv_eq_ediv (Rat.num_nonneg.mpr h) (Int.natCast_nonneg _)

lemma findSector_cons_pos {s : String} {a b d : ℚ} {rest : List (String × ℚ × ℚ)}
    (h : a ≤ d ∧ d < b) : findSector ((s, a, b) :: rest) d = some (s, a, b) := by
  simp only [findSector]
  rw [if_pos h]

lemma findSector_cons_neg {s : String} {a b d : ℚ} {rest : List (String × ℚ × ℚ)}
    (h : ¬(a ≤ d ∧ d < b)) : findSector ((s, a, b) :: rest) d = findSector rest d := by
  simp only [findSector]
  rw [if_neg h]

/-- For a normalized longitude the sector scan always finds a sector, the
sector is 30° wide, contains the longitude, and carries one of the 12 sign
names. -/
lemma findSector_total (d : ℚ) (h0 : 0 ≤ d) (h1 : d < 360) :
    ∃ s a b, findSector ZODIAC_SIGNS d = some (s, a, b) ∧ b = a + 30 ∧
      a ≤ d ∧ d < b ∧ s ∈ signNames := by
  rcases lt_or_le d 30 with h2 | h2
  · refine ⟨"Aries", 0, 30, ?_, by norm_num, h0, h2, by simp [signNames]⟩
    simp only [ZODIAC_SIGNS]
    rw [findSector_cons_pos ⟨h0, h2⟩]
  rcases lt_or_le d 60 with h3 | h3
  · refine ⟨"Taurus", 30, 60, ?_, by norm_num, h2, h3, by simp [signNames]⟩
    simp only [ZODIAC_SIGNS]
    rw [findSector_cons_neg (by rintro ⟨-, hb⟩; linarith), findSector_cons_pos ⟨h2, h3⟩]
  rcases lt_or_le d 90 with h4 | h4
  · refine ⟨"Gemini", 60, 90, ?_, by norm_num, h3, h4, by simp [signNames]⟩
    simp only [ZODIAC_SIGNS]
    rw [findSector_cons_neg (by rintro ⟨-, hb⟩; linarith),
      findSector_cons_neg (by rintro ⟨-, hb⟩; linarith), findSector_cons_pos ⟨h3, h4⟩]
  rcases lt_or_le d 120 with h5 | h5
  · refine ⟨"Cancer", 90, 120, ?_, by norm_num, h4, h5, by simp [signNames]⟩
    simp only [ZODIAC_SIGNS]
    rw [findSector_cons_neg (by rintro ⟨-, hb⟩; linarith),
      findSector_cons_neg (by rintro ⟨-, hb⟩; linarith),
      findSector_cons_neg (by rintro ⟨-, hb⟩; linarith), findSector_cons_pos ⟨h4, h5⟩]
  rcases lt_or_le d 150 with h6 | h6
  · refine ⟨"Leo", 120, 150, ?_, by norm_num, h5, h6, by simp [signNames]⟩
    simp only [ZODIAC_SIGNS]
    rw [findSector_cons_neg (by rintro ⟨-, hb⟩; linarith),
      findSector_cons_neg (by rintro ⟨-, hb⟩; linarith),
      findSector_cons_neg (by rintro ⟨-, hb⟩; linarith),
      findSector_cons_neg (by rintro ⟨-, hb⟩; linarith), findSector_cons_pos ⟨h5, h6⟩]
  rcases lt_or_le d 180 with h7 | h7
  · refine ⟨"Virgo", 150, 180, ?_, by norm_num, h6, h7, by simp [signNames]⟩
    simp only [ZODIAC_SIGNS]
    rw [findSector_cons_neg (by rintro ⟨-, hb⟩; linarith),
      findSector_cons_neg (by rintro ⟨-, hb⟩; linarith),
      findSector_cons_neg (by rintro ⟨-, hb⟩; linarith),
      findSector_cons_neg (by rintro ⟨-, hb⟩; linarith),
      findSector_cons_neg (by rintro ⟨-, hb⟩; linarith), findSector_cons_pos ⟨h6, h7⟩]
  rcases lt_or_le d 210 with h8 | h8
  · refine ⟨"Libra", 180, 210, ?_, by norm_num, h7, h8, by simp [signNames]⟩
    simp only [ZODIAC_SIGNS]
    rw [findSector_cons_neg (by rintro ⟨-, hb⟩; linarith),
      findSector_cons_neg (by rintro ⟨-, hb⟩; linarith),
      findSector_cons_neg (by rintro ⟨-, hb⟩; linarith),
      findSector_cons_neg (by rintro ⟨-, hb⟩; linarith),
      findSector_cons_neg (by rintro ⟨-, hb⟩; linarith),
      findSector_cons_neg (by rintro ⟨-, hb⟩; linarith), findSector_cons_pos ⟨h7, h8⟩]
  rcases lt_or_le d 240 with h9 | h9
  · refine ⟨"Scorpio", 210, 240, ?_, by norm_num, h8, h9, by simp [signNames]⟩
    simp only [ZODIAC_SIGNS]
    rw [findSector_cons_neg (by rintro ⟨-, hb⟩; linarith),
      findSector_cons_neg (by rintro ⟨-, hb⟩; linarith),
      findSector_cons_neg (by rintro ⟨-, hb⟩; linarith),
      findSector_cons_neg (by rintro ⟨-, hb⟩; linarith),
      findSector_cons_neg (by rintro ⟨-, hb⟩; linarith),
      findSector_cons_neg (by rintro ⟨-, hb⟩; linarith),
      findSector_cons_neg (by rintro ⟨-, hb⟩; linarith), findSector_cons_pos ⟨h8, h9⟩]
  rcases lt_or_le d 270 with h10 | h10
  · refine ⟨"Sagittarius", 240, 270, ?_, by norm_num, h9, h10, by simp [signNames]⟩
    simp only [ZODIAC_SIGNS]
    rw [findSector_cons_neg (by rintro ⟨-, hb⟩; linarith),
      findSector_cons_neg (by rintro ⟨-, hb⟩; linarith),
      findSector_cons_neg (by rintro ⟨-, hb⟩; linarith),
      findSector_cons_neg (by rintro ⟨-, hb⟩; linarith),
      findSector_cons_neg (by rintro ⟨-, hb⟩; linarith),
      findSector_cons_neg (by rintro ⟨-, hb⟩; linarith),
      findSector_cons_neg (by rintro ⟨-, hb⟩; linarith),
      findSector_cons_neg (by rintro ⟨-, hb⟩; linarith), findSector_cons_pos ⟨h9, h10⟩]
  rcases lt_or_le d 300 with h11 | h11
  · refine ⟨"Capricorn", 270, 300, ?_, by norm_num, h10, h11, by simp [signNames]⟩
    simp only [ZODIAC_SIGNS]
    rw [findSector_cons_neg (by rintro ⟨-, hb⟩; linarith),
      findSector_cons_neg (by rintro ⟨-, hb⟩; linarith),
      findSector_cons_neg (by rintro ⟨-, hb⟩; linarith),
      findSector_cons_neg (by rintro ⟨-, hb⟩; linarith),
      findSector_cons_neg (by rintro ⟨-, hb⟩; linarith),
      findSector_cons_neg (by rintro ⟨-, hb⟩; linarith),
      findSector_cons_neg (by rintro ⟨-, hb⟩; linarith),
      findSector_cons_neg (by rintro ⟨-, hb⟩; linarith),
      findSector_cons_neg (by rintro ⟨-, hb⟩; linarith), findSector_cons_pos ⟨h10, h11⟩]
  rcases lt_or_le d 330 with h12 | h12
  · refine ⟨"Aquarius", 300, 330, ?_, by norm_num, h11, h12, by simp [signNames]⟩
    simp only [ZODIAC_SIGNS]
    rw [findSector_cons_neg (by rintro ⟨-, hb⟩; linarith),
      findSector_cons_neg (by rintro ⟨-, hb⟩; linarith),
      findSector_cons_neg (by rintro ⟨-, hb⟩; linarith),
      findSector_cons_neg (by rintro ⟨-, hb⟩; linarith),
      findSector_cons_neg (by rintro ⟨-, hb⟩; linarith),
      findSector_cons_neg (by rintro ⟨-, hb⟩; linarith),
      findSector_cons_neg (by rintro ⟨-, hb⟩; linarith),
      findSector_cons_neg (by rintro ⟨-, hb⟩; linarith),
      findSector_cons_neg (by rintro ⟨-, hb⟩; linarith),
      findSector_cons_neg (by rintro ⟨-, hb⟩; linarith), findSector_cons_pos ⟨h11, h12⟩]
  · refine ⟨"Pisces", 330, 360, ?_, by norm_num, h12, h1, by simp [signNames]⟩
    simp only [ZODIAC_SIGNS]
    rw [findSector_cons_neg (by rintro ⟨-, hb⟩; linarith),
      findSector_cons_neg (by rintro ⟨-, hb⟩; linarith),
      findSector_cons_neg (by rintro ⟨-, hb⟩; linarith),
      findSector_cons_neg (by rintro ⟨-, hb⟩; linarith),
      findSector_cons_neg (by rintro ⟨-, hb⟩; linarith),
      findSector_cons_neg (by rintro ⟨-, hb⟩; linarith),
      findSector_cons_neg (by rintro ⟨-, hb⟩; linarith),
      findSector_cons_neg (by rintro ⟨-, hb⟩; linarith),
      findSector_cons_neg (by rintro ⟨-, hb⟩; linarith),
      findSector_cons_neg (by rintro ⟨-, hb⟩; linarith),
      findSector_cons_neg (by rintro ⟨-, hb⟩; linarith), findSector_cons_pos ⟨h12, h1⟩]

/-! ### Claims about the sign classifier -/

/-- C2 (counterexample): the spec asserts `classify_sign(359)` is Pisces at
29°59′, but the code returns Pisces 29°0′ — an integer input has zero
fractional minutes (the code's own test asserts `"Pisces 29°0′"`). -/
theorem sign_boundary_359_counterexample :
    get_zodiac_sign (359 : ℚ) = ("Pisces", "Pisces 29°0′") ∧
    get_zodiac_sign (359 : ℚ) ≠ ("Pisces", "Pisces 29°59′") := by
  decide

/-- C2 (amended): `classify_sign(10)` = Aries 10°0′, `classify_sign(120)` =
Leo 0°0′, `classify_sign(359)` = Pisces 29°0′, and a fractional longitude
359.99 gives Pisces 29°59′ (floor, not round). -/
theorem sign_boundary_exactness :
    get_zodiac_sign (10 : ℚ) = ("Aries", "Aries 10°0′") ∧
    get_zodiac_sign (120 : ℚ) = ("Leo", "Leo 0°0′") ∧
    get_zodiac_sign (359 : ℚ) = ("Pisces", "Pisces 29°0′") ∧
    get_zodiac_sign (mkRat 35999 100) = ("Pisces", "Pisces 29°59′") := by
  decide

/-- C3: for every longitude in `[0,360)` the classifier subtracts the matched
sector's start, floors that offset to the degree, and floors the fractional
remainder times 60 to the minute (truncation, no rounding); degrees stay in
`0..29` and minutes in `0..59`, and 359.999 within Pisces yields 29°59′,
never a 30°0′ wrap. -/
theorem sign_offset_floor :
    (∀ d : ℚ, 0 ≤ d → d < 360 → ∃ s a b,
      findSector ZODIAC_SIGNS d = some (s, a, b) ∧ b = a + 30 ∧ a ≤ d ∧ d < b ∧
      signParts d = some (s, ⌊d - a⌋, ⌊(d - a - (⌊d - a⌋ : ℚ)) * 60⌋) ∧
      get_zodiac_sign d = (s, formatPos s ⌊d - a⌋ ⌊(d - a - (⌊d - a⌋ : ℚ)) * 60⌋) ∧
      0 ≤ ⌊d - a⌋ ∧ ⌊d - a⌋ ≤ 29 ∧
      0 ≤ ⌊(d - a - (⌊d - a⌋ : ℚ)) * 60⌋ ∧ ⌊(d - a - (⌊d - a⌋ : ℚ)) * 60⌋ ≤ 59) ∧
    get_zodiac_sign (mkRat 359999 1000) = ("Pisces", "Pisces 29°59′") := by
  constructor
  · intro d h0 h1
    obtain ⟨s, a, b, he, hb, ha, hd, hs⟩ := findSector_total d h0 h1
    have hda0 : 0 ≤ d - a := by linarith
    have t1 : truncZ (d - a) = ⌊d - a⌋ := truncZ_of_nonneg hda0
    have hfr0 : 0 ≤ d - a - (⌊d - a⌋ : ℚ) := by linarith [Int.floor_le (d - a)]
    have hfr1 : d - a - (⌊d - a⌋ : ℚ) < 1 := by linarith [Int.lt_floor_add_one (d - a)]
    have t2 : truncZ ((d - a - (⌊d - a⌋ : ℚ)) * 60) = ⌊(d - a - (⌊d - a⌋ : ℚ)) * 60⌋ :=
      truncZ_of_nonneg (mul_nonneg hfr0 (by norm_num))
    have hsp : signParts d = some (s, ⌊d - a⌋, ⌊(d - a - (⌊d - a⌋ : ℚ)) * 60⌋) := by
      simp only [signParts, he, t1, t2]
    refine ⟨s, a, b, he, hb, ha, hd, hsp, ?_, ?_, ?_, ?_, ?_⟩
    · simp [get_zodiac_sign, hsp]
    · exact Int.floor_nonneg.mpr hda0
    · have h30 : ⌊d - a⌋ < 30 := Int.floor_lt.mpr (by push_cast; linarith)
      omega
    · exact Int.floor_nonneg.mpr (mul_nonneg hfr0 (by norm_num))
    · have h60 : ⌊(d - a - (⌊d - a⌋ : ℚ)) * 60⌋ < 60 := Int.floor_lt.mpr (by push_cast; linarith)
      omega
  · decide

/-- Witness for C3 at longitude 45 (Taurus 15°0′). -/
theorem sign_offset_floor_witness :
    ∃ s a b, findSector ZODIAC_SIGNS (45 : ℚ) = some (s, a, b) ∧ b = a + 30 ∧
      a ≤ (45 : ℚ) ∧ (45 : ℚ) < b ∧
      signParts 45 = some (s, ⌊(45 : ℚ) - a⌋, ⌊((45 : ℚ) - a - (⌊(45 : ℚ) - a⌋ : ℚ)) * 60⌋) ∧
      get_zodiac_sign 45 =
        (s, formatPos s ⌊(45 : ℚ) - a⌋ ⌊((45 : ℚ) - a - (⌊(45 : ℚ) - a⌋ : ℚ)) * 60⌋) ∧
      0 ≤ ⌊(45 : ℚ) - a⌋ ∧ ⌊(45 : ℚ) - a⌋ ≤ 29 ∧
      0 ≤ ⌊((45 : ℚ) - a - (⌊(45 : ℚ) - a⌋ : ℚ)) * 60⌋ ∧
      ⌊((45 : ℚ) - a - (⌊(45 : ℚ) - a⌋ : ℚ)) * 60⌋ ≤ 59 :=
  sign_offset_floor.1 45 (by norm_num) (by norm_num)

/-- C4: for every rational `x`, `get_zodiac_sign` applied to `x mod 360`
returns one of the 12 named zodiac signs, never the `"Unknown"` sentinel. -/
theorem sign_partition_totality (x : ℚ) :
    (get_zodiac_sign (x - 360 * (⌊x / 360⌋ : ℚ))).1 ∈ signNames ∧
    (get_zodiac_sign (x - 360 * (⌊x / 360⌋ : ℚ))).1 ≠ "Unknown" := by
  have hub : (360 : ℚ) * (x / 360) = x := by field_simp
  have h0 : 0 ≤ x - 360 * (⌊x / 360⌋ : ℚ) := by
    have hf : ((⌊x / 360⌋ : ℤ) : ℚ) ≤ x / 360 := Int.floor_le _
    have h2 := mul_le_mul_of_nonneg_left hf (by norm_num : (0 : ℚ) ≤ 360)
    rw [hub] at h2
    linarith
  have h1 : x - 360 * (⌊x / 360⌋ : ℚ) < 360 := by
    have hf : x / 360 < (⌊x / 360⌋ : ℚ) + 1 := Int.lt_floor_add_one _
    have h2 := mul_lt_mul_of_pos_left hf (by norm_num : (0 : ℚ) < 360)
    rw [hub] at h2
    linarith
  obtain ⟨s, a, b, he, hb, ha, hd, hs⟩ := findSector_total _ h0 h1
  have hfst : (get_zodiac_sign (x - 360 * (⌊x / 360⌋ : ℚ))).1 = s := by
    simp [get_zodiac_sign, signParts, he]
  constructor
  · rw [hfst]; exact hs
  · rw [hfst]; fin_cases hs <;> decide

/-- C8: the classifier degrades to the `("Unknown", "Unknown")` sentinel on a
longitude outside `[0,360)`, and the house resolver returns the `"UNKNOWN"`
sentinel — never house 1 — when no span matches. -/
theorem sentinel_on_malformed :
    (∀ d : ℚ, d < 0 ∨ 360 ≤ d → get_zodiac_sign d = ("Unknown", "Unknown")) ∧
    (∀ (d : ℚ) (cusps : Fin 12 → ℚ), (∀ i, houseMatch d cusps i = false) →
      get_house_for_planet d cusps = HouseResult.unknown ∧
      get_house_for_planet d cusps ≠ HouseResult.house 1) := by
  constructor
  · intro d hd
    have hnone : findSector ZODIAC_SIGNS d = none := by
      simp only [ZODIAC_SIGNS]
      rw [findSector_cons_neg (by rintro ⟨hl, hr⟩; rcases hd with h | h <;> linarith),
        findSector_cons_neg (by rintro ⟨hl, hr⟩; rcases hd with h | h <;> linarith),
        findSector_cons_neg (by rintro ⟨hl, hr⟩; rcases hd with h | h <;> linarith),
        findSector_cons_neg (by rintro ⟨hl, hr⟩; rcases hd with h | h <;> linarith),
        findSector_cons_neg (by rintro ⟨hl, hr⟩; rcases hd with h | h <;> linarith),
        findSector_cons_neg (by rintro ⟨hl, hr⟩; rcases hd with h | h <;> linarith),
        findSector_cons_neg (by rintro ⟨hl, hr⟩; rcases hd with h | h <;> linarith),
        findSector_cons_neg (by rintro ⟨hl, hr⟩; rcases hd with h | h <;> linarith),
        findSector_cons_neg (by rintro ⟨hl, hr⟩; rcases hd with h | h <;> linarith),
        findSector_cons_neg (by rintro ⟨hl, hr⟩; rcases hd with h | h <;> linarith),
        findSector_cons_neg (by rintro ⟨hl, hr⟩; rcases hd with h | h <;> linarith),
        findSector_cons_neg (by rintro ⟨hl, hr⟩; rcases hd with h | h <;> linarith)]
      rfl
    simp [get_zodiac_sign, signParts, hnone]
  · intro d cusps hall
    have hnone : (List.finRange 12).find? (houseMatch d cusps) = none :=
      List.find?_eq_none.mpr fun i _ => by simp [hall i]
    constructor
    · simp [get_house_for_planet, hnone]
    · simp [get_house_for_planet, hnone]

/-- Witness for C8: longitude 400 is unclassifiable; the all-zero cusp set
matches no span at longitude 5. -/
theorem sentinel_on_malformed_witness :
    get_zodiac_sign (400 : ℚ) = ("Unknown", "Unknown") ∧
    get_house_for_planet 5 constCusps = HouseResult.unknown :=
  ⟨sentinel_on_malformed.1 400 (Or.inr (by norm_num)),
   (sentinel_on_malformed.2 5 constCusps (by decide)).1⟩

/-! ### Helper lemmas: aspect detector -/

lemma filterMap_if {α β : Type*} (l : List α) (p : α → Bool) (f : α → β) :
    (l.filterMap fun x => if p x then some (f x) else none) = (l.filter p).map f := by
  induction l with
  | nil => rfl
  | cons x xs ih => by_cases h : p x <;> simp [List.filterMap_cons, List.filter_cons, h, ih]

/-- The per-pair record list is the table filtered by the orb test, mapped to
records, in table order. -/
lemma pairRecords_eq (cusps : Fin 12 → ℚ) (n1 : String) (p1 : PlanetPos)
    (n2 : String) (p2 : PlanetPos) :
    pairRecords cusps n1 p1 n2 p2 =
      (ASPECTS.filter fun t => aspectHit (circularSep p1.degree p2.degree) t.2.1 t.2.2).map
        fun t => mkRecord cusps n1 p1 n2 p2 t.1 := by
  simp only [pairRecords]
  exact filterMap_if ASPECTS _ _

/-- At most one entry of the aspect table matches any given separation: the
five orb windows are pairwise disjoint. -/
lemma aspect_filter_length (s : ℚ) :
    (ASPECTS.filter fun t => aspectHit s t.2.1 t.2.2).length ≤ 1 := by
  by_cases h1 : |s| ≤ 8
  · have n2 : ¬ |s - 180| ≤ 8 := fun hc => by rw [abs_le] at h1 hc; linarith
    have n3 : ¬ |s - 120| ≤ 6 := fun hc => by rw [abs_le] at h1 hc; linarith
    have n4 : ¬ |s - 90| ≤ 6 := fun hc => by rw [abs_le] at h1 hc; linarith
    have n5 : ¬ |s - 60| ≤ 4 := fun hc => by rw [abs_le] at h1 hc; linarith
    simp [ASPECTS, aspectHit, h1, n2, n3, n4, n5]
  · by_cases h2 : |s - 180| ≤ 8
    · have n3 : ¬ |s - 120| ≤ 6 := fun hc => by rw [abs_le] at h2 hc; linarith
      have n4 : ¬ |s - 90| ≤ 6 := fun hc => by rw [abs_le] at h2 hc; linarith
      have n5 : ¬ |s - 60| ≤ 4 := fun hc => by rw [abs_le] at h2 hc; linarith
      simp [ASPECTS, aspectHit, h1, h2, n3, n4, n5]
    · by_cases h3 : |s - 120| ≤ 6
      · have n4 : ¬ |s - 90| ≤ 6 := fun hc => by rw [abs_le] at h3 hc; linarith
        have n5 : ¬ |s - 60| ≤ 4 := fun hc => by rw [abs_le] at h3 hc; linarith
        simp [ASPECTS, aspectHit, h1, h2, h3, n4, n5]
      · by_cases h4 : |s - 90| ≤ 6
        · have n5 : ¬ |s - 60| ≤ 4 := fun hc => by rw [abs_le] at h4 hc; linarith
          simp [ASPECTS, aspectHit, h1, h2, h3, h4, n5]
        · by_cases h5 : |s - 60| ≤ 4
          · simp [ASPECTS, aspectHit, h1, h2, h3, h4, h5]
          · simp [ASPECTS, aspectHit, h1, h2, h3, h4, h5]

lemma length_flatMap_le {α β : Type*} (l : List α) (f : α → List β)
    (h : ∀ x ∈ l, (f x).length ≤ 1) : (l.flatMap f).length ≤ l.length := by
  induction l with
  | nil => simp
  | cons x xs ih =>
    simp only [List.flatMap_cons, List.length_append, List.length_cons]
    have hx := h x (List.mem_cons_self x xs)
    have hxs := ih fun y hy => h y (List.mem_cons_of_mem _ hy)
    omega

/-- Agreement on the fields `get_aspects` reads: planet name, `degree`,
`sign`. -/
def sameGeo (x y : String × PlanetPos) : Prop :=
  x.1 = y.1 ∧ x.2.degree = y.2.degree ∧ x.2.sign = y.2.sign

lemma pairRecords_congr {cusps : Fin 12 → ℚ} {x y z w : String × PlanetPos}
    (hxy : sameGeo x y) (hzw : sameGeo z w) :
    pairRecords cusps x.1 x.2 z.1 z.2 = pairRecords cusps y.1 y.2 w.1 w.2 := by
  obtain ⟨hn1, hd1, hs1⟩ := hxy
  obtain ⟨hn2, hd2, hs2⟩ := hzw
  simp only [pairRecords, mkRecord, hn1, hd1, hs1, hn2, hd2, hs2]

lemma flatMap_pairs_congr {cusps : Fin 12 → ℚ} {x y : String × PlanetPos}
    (hxy : sameGeo x y) :
    ∀ {ps qs : List (String × PlanetPos)}, List.Forall₂ sameGeo ps qs →
      ((ps.map fun z => (x, z)).flatMap fun pq =>
          pairRecords cusps pq.1.1 pq.1.2 pq.2.1 pq.2.2) =
        ((qs.map fun z => (y, z)).flatMap fun pq =>
          pairRecords cusps pq.1.1 pq.1.2 pq.2.1 pq.2.2) := by
  intro ps qs h
  induction h with
  | nil => rfl
  | cons hzw htail ih =>
    simp only [List.map_cons, List.flatMap_cons]
    rw [ih]
    congr 1
    exact pairRecords_congr hxy hzw

/-! ### Claims about the aspect detector -/

/-- C5: the separation computed by `get_aspects` lies in `[0,180]`, equals
the minimal circular angle between the two longitudes, and is symmetric. -/
theorem separation_minimal (a b : ℚ) (ha0 : 0 ≤ a) (ha1 : a < 360)
    (hb0 : 0 ≤ b) (hb1 : b < 360) :
    0 ≤ circularSep a b ∧ circularSep a b ≤ 180 ∧
    circularSep a b = min |a - b| (360 - |a - b|) ∧
    circularSep a b = circularSep b a := by
  have habs360 : |a - b| < 360 := by
    rw [abs_lt]; constructor <;> linarith
  have habs0 : 0 ≤ |a - b| := abs_nonneg _
  have h1 : 0 ≤ circularSep a b := by
    simp only [circularSep]; split_ifs with h <;> linarith
  have h2 : circularSep a b ≤ 180 := by
    simp only [circularSep]; split_ifs with h
    · linarith
    · linarith [not_lt.mp h]
  have h3 : circularSep a b = min |a - b| (360 - |a - b|) := by
    simp only [circularSep]; split_ifs with h
    · rw [min_eq_right (by linarith)]
    · rw [min_eq_left (by linarith [not_lt.mp h])]
  have h4 : circularSep a b = circularSep b a := by
    simp only [circularSep]; rw [abs_sub_comm]
  exact ⟨h1, h2, h3, h4⟩

/-- Witness for C5 at longitudes 10 and 350 (separation 20). -/
theorem separation_minimal_witness :
    0 ≤ circularSep 10 350 ∧ circularSep 10 350 ≤ 180 ∧
    circularSep 10 350 = min |(10 : ℚ) - 350| (360 - |(10 : ℚ) - 350|) ∧
    circularSep 10 350 = circularSep 350 10 :=
  separation_minimal 10 350 (by norm_num) (by norm_num) (by norm_num) (by norm_num)

/-- C6: the orb tolerance is inclusive at both ends — an aspect `(exact,orb)`
matches iff `|separation - exact| ≤ orb`; a separation of 96° matches Square
(orb 6) and 97° does not. -/
theorem orb_inclusive :
    (∀ angle exactAngle orb : ℚ,
      aspectHit angle exactAngle orb = true ↔ |angle - exactAngle| ≤ orb) ∧
    ("Square", (90 : ℚ), (6 : ℚ)) ∈ ASPECTS ∧
    aspectHit 96 90 6 = true ∧ aspectHit 97 90 6 = false ∧
    (pairRecords constCusps "A" (samplePos "X" 0) "B" (samplePos "Y" 96)).map
      AspectRecord.aspect = ["Square"] ∧
    pairRecords constCusps "A" (samplePos "X" 0) "B" (samplePos "Y" 97) = [] := by
  refine ⟨fun angle exactAngle orb => ?_, by decide, by decide, by decide, by decide, by decide⟩
  simp [aspectHit]

/-- C7: for each unordered pair `get_aspects` tests all 5 aspect definitions
in table order and emits one record per matching definition — no
deduplication or best-match filtering. -/
theorem aspects_emit_all_matches :
    (∀ (cusps : Fin 12 → ℚ) (n1 : String) (p1 : PlanetPos) (n2 : String) (p2 : PlanetPos),
      pairRecords cusps n1 p1 n2 p2 =
        (ASPECTS.filter fun t => aspectHit (circularSep p1.degree p2.degree) t.2.1 t.2.2).map
          fun t => mkRecord cusps n1 p1 n2 p2 t.1) ∧
    (∀ (ps : List (String × PlanetPos)) (cusps : Fin 12 → ℚ),
      get_aspects ps cusps = (allPairs ps).flatMap fun pq =>
        pairRecords cusps pq.1.1 pq.1.2 pq.2.1 pq.2.2) :=
  ⟨fun cusps n1 p1 n2 p2 => pairRecords_eq cusps n1 p1 n2 p2, fun _ _ => rfl⟩

/-- C9: the five orb windows are pairwise disjoint on `[0,180]`, so each
unordered pair contributes at most one record to `get_aspects`. -/
theorem aspect_windows_disjoint :
    (∀ s : ℚ, 0 ≤ s → s ≤ 180 →
      (ASPECTS.filter fun t => aspectHit s t.2.1 t.2.2).length ≤ 1) ∧
    (∀ (cusps : Fin 12 → ℚ) (n1 : String) (p1 : PlanetPos) (n2 : String) (p2 : PlanetPos),
      (pairRecords cusps n1 p1 n2 p2).length ≤ 1) ∧
    (∀ (ps : List (String × PlanetPos)) (cusps : Fin 12 → ℚ),
      (get_aspects ps cusps).length ≤ (allPairs ps).length) := by
  refine ⟨fun s _ _ => aspect_filter_length s, fun cusps n1 p1 n2 p2 => ?_, fun ps cusps => ?_⟩
  · rw [pairRecords_eq, List.length_map]
    exact aspect_filter_length _
  · exact length_flatMap_le _ _ fun pq _ => by
      rw [pairRecords_eq, List.length_map]; exact aspect_filter_length _

/-- Witness for C9 at separation 90 (exactly one window, Square). -/
theorem aspect_windows_disjoint_witness :
    (ASPECTS.filter fun t => aspectHit 90 t.2.1 t.2.2).length ≤ 1 :=
  aspect_windows_disjoint.1 90 (by norm_num) (by norm_num)

/-- C10: the output of `get_aspects` depends only on the planet names, their
`degree` and `sign` fields, and the cusps — the input `house`/`formatted`
fields are never read (houses are recomputed from the cusps). -/
theorem aspects_ignore_house_fields (cusps : Fin 12 → ℚ) :
    ∀ {ps qs : List (String × PlanetPos)}, List.Forall₂ sameGeo ps qs →
      get_aspects ps cusps = get_aspects qs cusps := by
  intro ps qs h
  induction h with
  | nil => rfl
  | cons hxy htail ih =>
    simp only [get_aspects, allPairs, List.flatMap_append]
    rw [flatMap_pairs_congr hxy htail]
    congr 1

/-- Two position tables agreeing on names, degrees, and signs but with
different `house`/`formatted` fields. -/
def posTableA : List (String × PlanetPos) :=
  [("Sun", { sign := "Leo", degree := 100, house := HouseResult.house 1, formatted := "a" }),
   ("Moon", { sign := "Libra", degree := 190, house := HouseResult.house 6, formatted := "b" })]

/-- Same geometry as `posTableA`, different `house`/`formatted` fields. -/
def posTableB : List (String × PlanetPos) :=
  [("Sun", { sign := "Leo", degree := 100, house := HouseResult.house 9, formatted := "x" }),
   ("Moon", { sign := "Libra", degree := 190, house := HouseResult.unknown, formatted := "y" })]

/-- Witness for C10: the two tables produce identical aspect lists. -/
theorem aspects_ignore_house_fields_witness :
    get_aspects posTableA testCusps = get_aspects posTableB testCusps :=
  aspects_ignore_house_fields testCusps
    (List.Forall₂.cons ⟨rfl, rfl, rfl⟩ (List.Forall₂.cons ⟨rfl, rfl, rfl⟩ List.Forall₂.nil))

/-! ### Helper lemmas: house resolver -/

lemma houseMatch_iff (d : ℚ) (a : Fin 12 → ℚ) (i : Fin 12) :
    houseMatch d a i = true ↔
      ((a i ≤ d ∧ d < a (i + 1)) ∨
       (a (i + 1) < a i ∧ (d ≥ a i ∨ d < a (i + 1)))) := by
  simp [houseMatch]

lemma index_step (D : Fin 12) (k : ℕ) :
    (D + 1 + (k : Fin 12)) + 1 = D + 1 + ((k + 1 : ℕ) : Fin 12) := by
  push_cast
  ring

/-- The cusp values walked from the house after the descent index `D`:
`cuspChain a D k = a (D + 1 + k)`, so `cuspChain a D 0` is the smallest cusp
and `cuspChain a D 11 = a D` the largest when `D` is the unique descent. -/
def cuspChain (a : Fin 12 → ℚ) (D : Fin 12) (k : ℕ) : ℚ :=
  a (D + 1 + (k : Fin 12))

lemma cuspChain_zero (a : Fin 12 → ℚ) (D : Fin 12) : cuspChain a D 0 = a (D + 1) := by
  simp [cuspChain]

lemma cuspChain_eleven (a : Fin 12 → ℚ) (D : Fin 12) : cuspChain a D 11 = a D := by
  simp only [cuspChain]
  congr 1
  have h1 : ((11 : ℕ) : Fin 12) = 11 := by decide
  have h2 : (1 : Fin 12) + 11 = 0 := by decide
  rw [h1, add_assoc, h2, add_zero]

lemma cuspChain_twelve (a : Fin 12 → ℚ) (D : Fin 12) : cuspChain a D 12 = a (D + 1) := by
  simp only [cuspChain]
  congr 1
  have h0 : ((12 : ℕ) : Fin 12) = 0 := by decide
  rw [h0, add_zero]

lemma cuspChain_succ (a : Fin 12 → ℚ) (D : Fin 12) (k : ℕ) :
    cuspChain a D (k + 1) = a ((D + 1 + (k : Fin 12)) + 1) := by
  simp only [cuspChain]
  rw [index_step]

lemma houseMatch_chain (d : ℚ) (a : Fin 12 → ℚ) (D : Fin 12) (k : ℕ) :
    houseMatch d a (D + 1 + (k : Fin 12)) = true ↔
      ((cuspChain a D k ≤ d ∧ d < cuspChain a D (k + 1)) ∨
       (cuspChain a D (k + 1) < cuspChain a D k ∧
         (d ≥ cuspChain a D k ∨ d < cuspChain a D (k + 1)))) := by
  rw [houseMatch_iff, cuspChain_succ]
  exact Iff.rfl

/-- A non-descent step of the walk: if the only descent is at `D`, the walk
is weakly increasing for the first eleven steps. -/
lemma cuspChain_step (a : Fin 12 → ℚ) (D : Fin 12)
    (honly : ∀ i, a (i + 1) < a i → i = D) {k : ℕ} (hk : k < 11) :
    cuspChain a D k ≤ cuspChain a D (k + 1) := by
  have hne : D + 1 + (k : Fin 12) ≠ D := by
    intro h
    have h3 : D + (1 + (k : Fin 12)) = D + 0 := by
      rw [add_zero, ← add_assoc]
      exact h
    have h2 : (1 : Fin 12) + (k : Fin 12) = 0 := add_left_cancel h3
    have h4 : (k : Fin 12) = -1 := eq_neg_of_add_eq_zero_right h2
    have h5 : ((k : Fin 12)).val = 11 := by rw [h4]; decide
    rw [Fin.val_natCast] at h5
    omega
  have hstep : ¬ a ((D + 1 + (k : Fin 12)) + 1) < a (D + 1 + (k : Fin 12)) :=
    fun hlt => hne (honly _ hlt)
  rw [cuspChain_succ]
  exact le_of_not_lt hstep

/-- Discrete intermediate-value: a value between `f 0` and `f n` falls in
some step interval. -/
lemma spans_exists (f : ℕ → ℚ) (d : ℚ) :
    ∀ n : ℕ, f 0 ≤ d → d < f n → ∃ k, k < n ∧ f k ≤ d ∧ d < f (k + 1) := by
  intro n
  induction n with
  | zero => intro h0 hn; exact absurd hn (not_lt.mpr h0)
  | succ m ih =>
    intro h0 hn
    by_cases hm : d < f m
    · obtain ⟨k, hk, ha, hb⟩ := ih h0 hm
      exact ⟨k, Nat.lt_succ_of_lt hk, ha, hb⟩
    · exact ⟨m, Nat.lt_succ_self m, not_lt.mp hm, hn⟩

lemma spans_mono (f : ℕ → ℚ) (m : ℕ) (hmono : ∀ k, k < m → f k ≤ f (k + 1)) :
    ∀ k, k ≤ m → ∀ j, j ≤ k → f j ≤ f k := by
  intro k
  induction k with
  | zero =>
    intro _ j hj
    have hj0 : j = 0 := Nat.le_zero.mp hj
    subst hj0
    exact le_rfl
  | succ n ih =>
    intro hnm j hj
    rcases Nat.lt_or_ge j (n + 1) with h | h
    · have h1 : f j ≤ f n := ih (by omega) j (by omega)
      have h2 : f n ≤ f (n + 1) := hmono n (by omega)
      linarith
    · have hj1 : j = n + 1 := by omega
      subst hj1
      exact le_rfl

lemma find_unique {α : Type*} {p : α → Bool} :
    ∀ (l : List α) (i : α), i ∈ l → p i = true → (∀ j ∈ l, p j = true → j = i) →
      l.find? p = some i := by
  intro l
  induction l with
  | nil => intro i hi _ _; cases hi
  | cons x xs ih =>
    intro i hi hp huniq
    by_cases hx : p x = true
    · have hxi : x = i := huniq x (List.mem_cons_self x xs) hx
      rw [List.find?_cons_of_pos _ hx, hxi]
    · have hix : i ≠ x := fun h => hx (h ▸ hp)
      have hi' : i ∈ xs := by
        rcases List.mem_cons.mp hi with h | h
        · exact absurd h hix
        · exact h
      rw [List.find?_cons_of_neg _ hx]
      exact ih i hi' hp fun j hj hpj => huniq j (List.mem_cons_of_mem _ hj) hpj

/-- Given a unique descent at `D`, every longitude matches exactly one house
span. -/
lemma match_exists_unique (a : Fin 12 → ℚ) (d : ℚ) (D : Fin 12)
    (hdesc : a (D + 1) < a D) (honly : ∀ i, a (i + 1) < a i → i = D) :
    ∃ i, houseMatch d a i = true ∧ ∀ j, houseMatch d a j = true → j = i := by
  have hstep : ∀ k : ℕ, k < 11 → cuspChain a D k ≤ cuspChain a D (k + 1) :=
    fun k hk => cuspChain_step a D honly hk
  have hmono := spans_mono (cuspChain a D) 11 hstep
  have h110 : cuspChain a D 12 < cuspChain a D 11 := by
    rw [cuspChain_twelve, cuspChain_eleven]
    exact hdesc
  have hrepr : ∀ j : Fin 12, ∃ k : ℕ, k < 12 ∧ j = D + 1 + (k : Fin 12) := by
    intro j
    refine ⟨(j - (D + 1)).val, (j - (D + 1)).isLt, ?_⟩
    rw [Fin.cast_val_eq_self, add_comm, sub_add_cancel]
  by_cases hmid : cuspChain a D 0 ≤ d ∧ d < cuspChain a D 11
  · obtain ⟨k, hk11, hk1, hk2⟩ := spans_exists (cuspChain a D) d 11 hmid.1 hmid.2
    refine ⟨D + 1 + (k : Fin 12), ?_, ?_⟩
    · rw [houseMatch_chain]
      exact Or.inl ⟨hk1, hk2⟩
    · intro j hj
      obtain ⟨k', hk'12, rfl⟩ := hrepr j
      rw [houseMatch_chain] at hj
      have hk'k : k' = k := by
        rcases hj with ⟨hj1, hj2⟩ | ⟨hjw, hjor⟩
        · by_cases h11 : k' = 11
          · exfalso
            subst h11
            linarith [hmid.2]
          · rcases Nat.lt_trichotomy k' k with hlt | heq | hgt
            · exfalso
              have hle : cuspChain a D (k' + 1) ≤ cuspChain a D k :=
                hmono k (by omega) (k' + 1) (by omega)
              linarith
            · exact heq
            · exfalso
              have hle : cuspChain a D (k + 1) ≤ cuspChain a D k' :=
                hmono k' (by omega) (k + 1) (by omega)
              linarith
        · exfalso
          by_cases h11 : k' = 11
          · subst h11
            rcases hjor with h | h
            · linarith [hmid.2]
            · rw [cuspChain_twelve] at h
              have h0 := cuspChain_zero a D
              linarith [hmid.1]
          · have := hstep k' (by omega)
            linarith
      rw [hk'k]
  · have hor : d < cuspChain a D 0 ∨ cuspChain a D 11 ≤ d := by
      by_contra hc
      push_neg at hc
      exact hmid ⟨hc.1, hc.2⟩
    have hD11 : D = D + 1 + ((11 : ℕ) : Fin 12) := by
      have h1 : ((11 : ℕ) : Fin 12) = 11 := by decide
      have h2 : (1 : Fin 12) + 11 = 0 := by decide
      rw [h1, add_assoc, h2, add_zero]
    refine ⟨D, ?_, ?_⟩
    · rw [hD11, houseMatch_chain]
      refine Or.inr ⟨h110, ?_⟩
      rcases hor with h | h
      · right
        rw [cuspChain_twelve]
        rw [cuspChain_zero] at h
        exact h
      · left
        exact h
    · intro j hj
      obtain ⟨k', hk'12, rfl⟩ := hrepr j
      rw [houseMatch_chain] at hj
      have hk' : k' = 11 := by
        rcases hj with ⟨hj1, hj2⟩ | ⟨hjw, hjor⟩
        · by_cases h11 : k' = 11
          · exact h11
          · exfalso
            have hlow : cuspChain a D 0 ≤ cuspChain a D k' :=
              hmono k' (by omega) 0 (by omega)
            have hhigh : cuspChain a D (k' + 1) ≤ cuspChain a D 11 :=
              hmono 11 (by omega) (k' + 1) (by omega)
            rcases hor with h | h
            · linarith
            · linarith
        · by_cases h11 : k' = 11
          · exact h11
          · exfalso
            have := hstep k' (by omega)
            linarith
      rw [hk']
      exact hD11.symm

/-! ### Claim about the house resolver -/

/-- C1: for a cusp set of 12 distinct longitudes in `[0,360)` in circular
order (a single cyclic descent, at `D`), every longitude matches exactly one
house span, `get_house_for_planet` returns that house's number in `1..12`,
and the `"UNKNOWN"` branch is unreachable. -/
theorem house_partition_unique (a : Fin 12 → ℚ) (d : ℚ)
    (hrange : ∀ i, 0 ≤ a i ∧ a i < 360) (hd0 : 0 ≤ d) (hd1 : d < 360)
    (hdist : ∀ i j, a i = a j → i = j)
    (D : Fin 12) (hdesc : a (D + 1) < a D)
    (honly : ∀ i, a (i + 1) < a i → i = D) :
    ∃ i : Fin 12, houseMatch d a i = true ∧ (∀ j, houseMatch d a j = true → j = i) ∧
      get_house_for_planet d a = HouseResult.house (i.val + 1) ∧
      1 ≤ i.val + 1 ∧ i.val + 1 ≤ 12 ∧
      get_house_for_planet d a ≠ HouseResult.unknown := by
  obtain ⟨i, hmatch, huniq⟩ := match_exists_unique a d D hdesc honly
  have hfind : (List.finRange 12).find? (houseMatch d a) = some i :=
    find_unique (List.finRange 12) i (List.mem_finRange i) hmatch
      fun j _ hj => huniq j hj
  refine ⟨i, hmatch, huniq, ?_, ?_, ?_, ?_⟩
  · simp [get_house_for_planet, hfind]
  · omega
  · have := i.isLt
    omega
  · simp [get_house_for_planet, hfind]

/-- Witness for C1: the reference test's evenly spaced cusps (descent at
House 12's cusp) and a planet at 15°, which lies in House 1. -/
theorem house_partition_unique_witness :
    ∃ i : Fin 12, houseMatch 15 testCusps i = true ∧
      (∀ j, houseMatch 15 testCusps j = true → j = i) ∧
      get_house_for_planet 15 testCusps = HouseResult.house (i.val + 1) ∧
      1 ≤ i.val + 1 ∧ i.val + 1 ≤ 12 ∧
      get_house_for_planet 15 testCusps ≠ HouseResult.unknown :=
  house_partition_unique testCusps 15 (by decide) (by decide) (by decide) (by decide)
    11 (by decide) (by decide)
